import Mathlib

/-!
Verification of the HyperX Cloud Flight wireless HID reader
(`index.js` of `hyperx-cloud-flight-battery-tray`).

The embedding translates the decoder, the keep-alive scheduler
(`bootstrap`), the dedupe/throttle policy and the session open/close
wiring into pure Lean functions.  Raw HID reports are lists of bytes
(`Nat`), the event emitter is modelled by returning the list of emitted
events, and the mutable module-level variables (`lastBattery`,
`lastBatteryEmitTs`, `lastCharging`, `lastPower`, `lastMuted`,
`interval`, `bootstrapDevice`) become explicit state records threaded
through each handler.  Fallible host operations (`new HID.HID(path)`
which may throw, `device.write` which may throw) are modelled by boolean
oracles `openOk`, `writeOk` indexed by the interface path.
-/

namespace HyperX

/-- `VENDOR_ID = 2385` (Kingston/HyperX), from index.js line 5. -/
def VENDOR_ID : Nat := 2385

/-- `SUPPORTED_PRODUCT_IDS = new Set([5828, 5923])`, index.js line 7. -/
def SUPPORTED_PRODUCT_IDS : List Nat := [5828, 5923]

/-- `STATUS_USAGE = 771`, index.js line 13. -/
def STATUS_USAGE : Nat := 771

/-- `STATUS_USAGEPAGES = new Set([65363, 65424])`, index.js line 14. -/
def STATUS_USAGEPAGES : List Nat := [65363, 65424]

/-- Default `updateDelay = 5 * 1000 * 60` ms, index.js line 34. -/
def updateDelayDefault : Int := 5 * 1000 * 60

/-- Default `dedupe = true`, index.js line 35. -/
def dedupeDefault : Bool := true

/-- Default `batteryMinIntervalMs = 15 * 1000` ms, index.js line 36. -/
def batteryMinIntervalMsDefault : Int := 15 * 1000

/-- One HID interface descriptor as returned by `HID.devices()`:
vendor/product ids, product name, usage and usage-page (possibly absent
on some hosts, hence `Option`), and the opaque platform path. -/
structure DeviceInfo where
  vendorId : Nat
  productId : Nat
  product : String
  usage : Option Nat
  usagePage : Option Nat
  path : String
deriving Repr, DecidableEq

/-- Scheduler state: `interval` is whether the repeating keep-alive timer
is armed (`interval` variable non-null in index.js), `bootstrapDevice` is
the path of the lazily opened status interface handle (or `none`). -/
structure SchedState where
  interval : Bool
  bootstrapDevice : Option String
deriving Repr, DecidableEq

/-- Dedupe/throttle state: the module-level `lastBattery`,
`lastBatteryEmitTs`, `lastCharging`, `lastPower`, `lastMuted` variables
of index.js lines 44-48.  `lastPower = some true` encodes `'on'`,
`some false` encodes `'off'`, `none` encodes the initial `null`. -/
structure SessionState where
  lastBattery : Option Nat
  lastBatteryEmitTs : Int
  lastCharging : Option Bool
  lastPower : Option Bool
  lastMuted : Option Bool
deriving Repr, DecidableEq

/-- Combined mutable state visible to the data handler. -/
structure FullState where
  sess : SessionState
  sched : SchedState
deriving Repr, DecidableEq

/-- The events emitted on the emitter: `power on/off` (`true` = `'on'`),
`muted`, `charging`, `battery pct`, `volume` (`true` = `'up'`),
`unknown raw`, `error msg`. -/
inductive Ev where
  | power (o : Bool)
  | muted (b : Bool)
  | charging (b : Bool)
  | battery (pct : Nat)
  | volume (u : Bool)
  | unknown (data : List Nat)
  | error (msg : String)
deriving Repr, DecidableEq

/-- The decoded signal of a 2-byte report before the dedupe policy is
applied (the classification made by lines 140-161 of index.js). -/
inductive Signal where
  | power (o : Bool)
  | muted (b : Bool)
deriving Repr, DecidableEq

/-- The event a power/mute signal is emitted as. -/
def evOfSignal : Signal → Ev
  | Signal.power b => Ev.power b
  | Signal.muted b => Ev.muted b

def isPowerEv : Ev → Bool
  | Ev.power _ => true
  | _ => false

def isMutedEv : Ev → Bool
  | Ev.muted _ => true
  | _ => false

def isChargingEv : Ev → Bool
  | Ev.charging _ => true
  | _ => false

def isBatteryEv : Ev → Bool
  | Ev.battery _ => true
  | _ => false

/-- `true` on power and muted events (the two channels decoded from a
2-byte report). -/
def isPowerMutedEv : Ev → Bool
  | Ev.power _ => true
  | Ev.muted _ => true
  | _ => false

/-- index.js line 79: `d.usage === STATUS_USAGE && STATUS_USAGEPAGES.has(d.usagePage)`. -/
def isStatusPreferred (d : DeviceInfo) : Bool :=
  (d.usage == some STATUS_USAGE) &&
    (match d.usagePage with
     | some p => STATUS_USAGEPAGES.contains p
     | none => false)

/-- index.js line 82: fallback predicate `d.usage === STATUS_USAGE`. -/
def hasStatusUsage (d : DeviceInfo) : Bool :=
  d.usage == some STATUS_USAGE

/-- index.js lines 77-82: `devices.find(preferred) || devices.find(usage)`. -/
def findStatusInterface (devices : List DeviceInfo) : Option DeviceInfo :=
  match devices.find? isStatusPreferred with
  | some d => some d
  | none => devices.find? hasStatusUsage

/-- The message of the error emitted when no status interface exists
(index.js lines 85-90). -/
def statusNotFoundMsg : String :=
  "Status interface (usage=771) not found; adjust usage and usagePage filters"

/-- Stands for the exception emitted when `new HID.HID(path)` throws in
`bootstrap` (index.js lines 96-98). -/
def statusOpenErrorMsg : String := "bootstrap open failure"

/-- Stands for the exception emitted when the keep-alive `write` throws
(index.js lines 109-111). -/
def wakeupWriteErrorMsg : String := "keep-alive write failure"

/-- index.js lines 70-112, `function bootstrap()`:
arm the repeating timer if not armed; resolve (lazily opening) the status
interface handle, emitting an error and returning early when the
interface is missing or the open throws; then attempt the fixed 20-byte
keep-alive write, emitting an error when it throws.  `openOk p` / `writeOk p`
model whether opening / writing path `p` succeeds. -/
def bootstrap (openOk writeOk : String → Bool) (devices : List DeviceInfo)
    (s : SchedState) : SchedState × List Ev :=
  let s1 : SchedState := { s with interval := true }
  match s1.bootstrapDevice with
  | some p =>
      if writeOk p then (s1, []) else (s1, [Ev.error wakeupWriteErrorMsg])
  | none =>
      match findStatusInterface devices with
      | none => (s1, [Ev.error statusNotFoundMsg])
      | some d =>
          if openOk d.path then
            let s2 : SchedState := { s1 with bootstrapDevice := some d.path }
            if writeOk d.path then (s2, [])
            else (s2, [Ev.error wakeupWriteErrorMsg])
          else (s1, [Ev.error statusOpenErrorMsg])

/-- The classification of a 2-byte report (the branch conditions of
index.js lines 140, 151, 161): `(0x64,0x03)` is power off, `(0x64,0x01)`
is power on, anything else is a mute-status report whose value is
`b0 == 0x65 && b1 == 0x04`. -/
def decode2 (b0 b1 : Nat) : Signal :=
  if b0 = 0x64 ∧ b1 = 0x03 then Signal.power false
  else if b0 = 0x64 ∧ b1 = 0x01 then Signal.power true
  else Signal.muted (decide (b0 = 0x65 ∧ b1 = 0x04))

/-- index.js lines 138-167, the `case 0x02` handler: power off clears and
nulls the interval then (dedupe permitting) emits `power off`; power on
calls `bootstrap()` then (dedupe permitting) emits `power on`; any other
2-byte report is a mute report deduped against `lastMuted`. -/
def handleData2 (dedupe : Bool) (openOk writeOk : String → Bool)
    (devices : List DeviceInfo) (st : FullState) (b0 b1 : Nat) :
    FullState × List Ev :=
  if b0 = 0x64 ∧ b1 = 0x03 then
    let sched : SchedState := { st.sched with interval := false }
    if ¬dedupe ∨ st.sess.lastPower ≠ some false then
      ({ sess := { st.sess with lastPower := some false }, sched := sched },
       [Ev.power false])
    else
      ({ st with sched := sched }, [])
  else if b0 = 0x64 ∧ b1 = 0x01 then
    let br := bootstrap openOk writeOk devices st.sched
    if ¬dedupe ∨ st.sess.lastPower ≠ some true then
      ({ sess := { st.sess with lastPower := some true }, sched := br.1 },
       br.2 ++ [Ev.power true])
    else
      ({ st with sched := br.1 }, br.2)
  else
    let isMuted : Bool := decide (b0 = 0x65 ∧ b1 = 0x04)
    if ¬dedupe ∨ some isMuted ≠ st.sess.lastMuted then
      ({ st with sess := { st.sess with lastMuted := some isMuted } },
       [Ev.muted isMuted])
    else
      (st, [])

/-- The `chargeState === 0x0f` band chain of `calculatePercentage`
(index.js lines 195-201), with each comparison exactly as written. -/
def band0x0f (m : Nat) : Option Nat :=
  if m ≥ 130 then some 100
  else if m < 130 ∧ m ≥ 120 then some 95
  else if m < 120 ∧ m ≥ 100 then some 90
  else if m < 100 ∧ m ≥ 70 then some 85
  else if m < 70 ∧ m ≥ 50 then some 80
  else if m < 50 ∧ m ≥ 20 then some 75
  else if m < 20 ∧ m > 0 then some 70
  else none

/-- The `chargeState === 0x0e` band chain of `calculatePercentage`
(index.js lines 205-216), with each comparison exactly as written. -/
def band0x0e (m : Nat) : Option Nat :=
  if m < 250 ∧ m > 240 then some 65
  else if m < 240 ∧ m ≥ 220 then some 60
  else if m < 220 ∧ m ≥ 208 then some 55
  else if m < 208 ∧ m ≥ 200 then some 50
  else if m < 200 ∧ m ≥ 190 then some 45
  else if m < 190 ∧ m ≥ 180 then some 40
  else if m < 179 ∧ m ≥ 169 then some 35
  else if m < 169 ∧ m ≥ 159 then some 30
  else if m < 159 ∧ m ≥ 148 then some 25
  else if m < 148 ∧ m ≥ 119 then some 20
  else if m < 119 ∧ m ≥ 90 then some 15
  else if m < 90 then some 10
  else none

/-- The pure percentage lookup of `calculatePercentage`
(index.js lines 183-220), as a function of `(chargeState, magicValue)`:
the `return 100` inside the `chargeState === 0x10` branch when
`magicValue <= 11` (line 191), then the `0x0f` band chain, then the
`0x0e` band chain, else `null`. -/
def percentageOf (chargeState magicValue : Nat) : Option Nat :=
  if chargeState = 0x10 ∧ magicValue ≤ 11 then some 100
  else if chargeState = 0x0f then band0x0f magicValue
  else if chargeState = 0x0e then band0x0e magicValue
  else none

/-- The twelve band predicates of the `chargeState === 0x0e` chain
(index.js lines 205-216), in source order, each exactly the comparison
written in the code. -/
def bands0x0e : List (Nat → Bool) :=
  [ fun m => decide (m < 250 ∧ m > 240),
    fun m => decide (m < 240 ∧ m ≥ 220),
    fun m => decide (m < 220 ∧ m ≥ 208),
    fun m => decide (m < 208 ∧ m ≥ 200),
    fun m => decide (m < 200 ∧ m ≥ 190),
    fun m => decide (m < 190 ∧ m ≥ 180),
    fun m => decide (m < 179 ∧ m ≥ 169),
    fun m => decide (m < 169 ∧ m ≥ 159),
    fun m => decide (m < 159 ∧ m ≥ 148),
    fun m => decide (m < 148 ∧ m ≥ 119),
    fun m => decide (m < 119 ∧ m ≥ 90),
    fun m => decide (m < 90) ]

/-- The charging decode and dedupe of index.js lines 184-192 (the head of
the `calculatePercentage` closure): on charge state `0x10` decode
`isCharging = magicValue >= 20` and (dedupe permitting) emit it; on any
other charge state the charging channel is untouched.  Returns the new
`lastCharging` value and the emitted events. -/
def chargingStep (dedupe : Bool) (sess : SessionState)
    (chargeState magicValue : Nat) : Option Bool × List Ev :=
  if chargeState = 0x10 then
    let isCharging : Bool := decide (magicValue ≥ 20)
    if ¬dedupe ∨ some isCharging ≠ sess.lastCharging then
      (some isCharging, [Ev.charging isCharging])
    else (sess.lastCharging, [])
  else (sess.lastCharging, [])

/-- index.js lines 177-234, the `case 0x0f / case 0x14` handler, given the
already extracted `chargeState` and `magicValue`: the charging decode and
dedupe of lines 184-192 (inside `calculatePercentage`), then the battery
emission of lines 222-233 with the hybrid changed-or-timed-out policy.
`now` models `Date.now()`. -/
def handleStatus (dedupe : Bool) (batteryMinIntervalMs now : Int)
    (sess : SessionState) (chargeState magicValue : Nat) :
    SessionState × List Ev :=
  let cstep := chargingStep dedupe sess chargeState magicValue
  let sess1 : SessionState := { sess with lastCharging := cstep.1 }
  match percentageOf chargeState magicValue with
  | none => (sess1, cstep.2)
  | some pct =>
      let changed : Prop := some pct ≠ sess.lastBattery
      let timedOut : Prop := now - sess.lastBatteryEmitTs ≥ batteryMinIntervalMs
      if ¬dedupe ∨ changed ∨ timedOut then
        ({ sess1 with lastBattery := some pct, lastBatteryEmitTs := now },
         cstep.2 ++ [Ev.battery pct])
      else (sess1, cstep.2)

/-- index.js lines 132-242, the full `device.on('data')` handler: dispatch
on the report length; length 2 is power/mute, length 5 is volume (middle
byte 1 is up, 2 is down, anything else silently dropped), length 15 or 20
is status/battery with `chargeState = data[3]` and
`magicValue = data[4] || chargeState`, anything else emits `unknown`. -/
def handleReport (dedupe : Bool) (openOk writeOk : String → Bool)
    (devices : List DeviceInfo) (batteryMinIntervalMs now : Int)
    (st : FullState) (data : List Nat) : FullState × List Ev :=
  if data.length = 2 then
    handleData2 dedupe openOk writeOk devices st (data.getD 0 0) (data.getD 1 0)
  else if data.length = 5 then
    let v := data.getD 1 0
    if v = 1 then (st, [Ev.volume true])
    else if v = 2 then (st, [Ev.volume false])
    else (st, [])
  else if data.length = 15 ∨ data.length = 20 then
    let chargeState := data.getD 3 0
    let magicValue := if data.getD 4 0 ≠ 0 then data.getD 4 0 else chargeState
    let r := handleStatus dedupe batteryMinIntervalMs now st.sess chargeState magicValue
    ({ st with sess := r.1 }, r.2)
  else
    (st, [Ev.unknown data])

/-- The paths opened by the `devices.forEach` loop of index.js
lines 117-124: every selected interface whose `new HID.HID(path)` does
not throw, in order. -/
def headsetOpens (openOk : String → Bool) (devices : List DeviceInfo) :
    List String :=
  (devices.filter (fun d => openOk d.path)).map (fun d => d.path)

/-- All paths opened during session construction (index.js lines 114-124):
first `bootstrap()` opens the status interface handle, then the forEach
loop opens every selected interface. -/
def sessionOpens (openOk writeOk : String → Bool) (devices : List DeviceInfo) :
    List String :=
  let sched := (bootstrap openOk writeOk devices
    { interval := false, bootstrapDevice := none }).1
  (match sched.bootstrapDevice with
   | some p => [p]
   | none => []) ++ headsetOpens openOk devices

/-- A constructed session: the scheduler state after the initial
`bootstrap()` call, and the successfully opened headset interface
handles (each of which registered a `close` listener,
index.js lines 126-128). -/
structure Session where
  sched : SchedState
  openHeadset : List String
deriving Repr, DecidableEq

/-- Session construction (index.js lines 114-124), restricted to the state
the shutdown claims need. -/
def createSession (openOk writeOk : String → Bool)
    (devices : List DeviceInfo) : Session :=
  { sched := (bootstrap openOk writeOk devices
      { interval := false, bootstrapDevice := none }).1,
    openHeadset := headsetOpens openOk devices }

/-- Emitting the `'close'` signal (index.js lines 126-128): every
registered listener closes its own headset handle (exactly the
successfully opened ones); nothing else happens — the scheduler state
(timer and `bootstrapDevice` handle) is untouched.  Returns the new
session state and the list of paths whose handles were closed. -/
def closeSignal (s : Session) : Session × List String :=
  ({ s with openHeadset := [] }, s.openHeadset)

/-- Initial dedupe state (index.js lines 44-48). -/
def initialSession : SessionState :=
  { lastBattery := none, lastBatteryEmitTs := 0, lastCharging := none,
    lastPower := none, lastMuted := none }

/-- Initial scheduler state (index.js lines 67-68). -/
def initialSched : SchedState :=
  { interval := false, bootstrapDevice := none }

/-- Initial combined state. -/
def initialFull : FullState :=
  { sess := initialSession, sched := initialSched }

/-- A concrete enumeration entry that carries the status usage (771) and a
known usage page, used as input for the construction-time scenarios. -/
def statusDev : DeviceInfo :=
  { vendorId := 2385, productId := 5828,
    product := "HyperX Cloud Flight Wireless",
    usage := some 771, usagePage := some 65363, path := "status0" }

/-- A concrete enumeration entry that does not carry the status usage. -/
def nonStatusDev : DeviceInfo :=
  { vendorId := 2385, productId := 5828,
    product := "HyperX Cloud Flight Wireless",
    usage := some 1, usagePage := some 12, path := "if0" }

/-! ## Helper lemmas (shared) -/

/-- The preferred status predicate implies the fallback predicate. -/
lemma statusPreferred_hasUsage {d : DeviceInfo}
    (h : isStatusPreferred d = true) : hasStatusUsage d = true := by
  unfold isStatusPreferred at h
  unfold hasStatusUsage
  exact (Bool.and_eq_true _ _ |>.mp h).1

/-- `bootstrap` always leaves the repeating timer armed. -/
lemma bootstrap_interval (openOk writeOk : String → Bool)
    (devices : List DeviceInfo) (s : SchedState) :
    (bootstrap openOk writeOk devices s).1.interval = true := by
  rcases s with ⟨iv, bd⟩
  cases bd with
  | some p =>
      by_cases hw : writeOk p <;> simp [bootstrap, hw]
  | none =>
      cases hf : findStatusInterface devices with
      | none => simp [bootstrap, hf]
      | some d =>
          by_cases ho : openOk d.path <;> by_cases hw : writeOk d.path <;>
            simp [bootstrap, hf, ho, hw]

/-- Every event `bootstrap` emits is an error event. -/
lemma bootstrap_evs_error (openOk writeOk : String → Bool)
    (devices : List DeviceInfo) (s : SchedState) :
    ∀ e ∈ (bootstrap openOk writeOk devices s).2, ∃ msg, e = Ev.error msg := by
  rcases s with ⟨iv, bd⟩
  cases bd with
  | some p =>
      by_cases hw : writeOk p <;> simp [bootstrap, hw]
  | none =>
      cases hf : findStatusInterface devices with
      | none => simp [bootstrap, hf]
      | some d =>
          by_cases ho : openOk d.path <;> by_cases hw : writeOk d.path <;>
            simp [bootstrap, hf, ho, hw]

/-- `bootstrap` emits no power or muted event. -/
lemma bootstrap_filter_pm (openOk writeOk : String → Bool)
    (devices : List DeviceInfo) (s : SchedState) :
    (bootstrap openOk writeOk devices s).2.filter isPowerMutedEv = [] := by
  rw [List.filter_eq_nil_iff]
  intro e he
  obtain ⟨msg, rfl⟩ := bootstrap_evs_error openOk writeOk devices s e he
  simp [isPowerMutedEv]

/-- `bootstrap` emits no power event. -/
lemma bootstrap_filter_power (openOk writeOk : String → Bool)
    (devices : List DeviceInfo) (s : SchedState) :
    (bootstrap openOk writeOk devices s).2.filter isPowerEv = [] := by
  rw [List.filter_eq_nil_iff]
  intro e he
  obtain ⟨msg, rfl⟩ := bootstrap_evs_error openOk writeOk devices s e he
  simp [isPowerEv]

/-- `bootstrap` emits no power event (count form). -/
lemma bootstrap_countP_power (openOk writeOk : String → Bool)
    (devices : List DeviceInfo) (s : SchedState) :
    (bootstrap openOk writeOk devices s).2.countP isPowerEv = 0 := by
  rw [List.countP_eq_zero]
  intro e he
  obtain ⟨msg, rfl⟩ := bootstrap_evs_error openOk writeOk devices s e he
  simp [isPowerEv]

/-- On charge state `0x0f` the lookup is the `0x0f` band chain. -/
lemma percentageOf_0x0f (m : Nat) : percentageOf 0x0f m = band0x0f m := rfl

/-- On charge state `0x0e` the lookup is the `0x0e` band chain. -/
lemma percentageOf_0x0e (m : Nat) : percentageOf 0x0e m = band0x0e m := rfl

/-- Inversion of the `0x0f` band chain: the ranges that produce each
percentage. -/
lemma band0x0f_cases (m p : Nat) (h : band0x0f m = some p) :
    (130 ≤ m ∧ p = 100) ∨ (m < 130 ∧ m ≥ 120 ∧ p = 95) ∨
    (m < 120 ∧ m ≥ 100 ∧ p = 90) ∨ (m < 100 ∧ m ≥ 70 ∧ p = 85) ∨
    (m < 70 ∧ m ≥ 50 ∧ p = 80) ∨ (m < 50 ∧ m ≥ 20 ∧ p = 75) ∨
    (m < 20 ∧ m > 0 ∧ p = 70) := by
  unfold band0x0f at h
  by_cases h0 : m ≥ 130
  · rw [if_pos h0, Option.some.injEq] at h
    refine Or.inl ⟨?_, ?_⟩ <;> omega
  rw [if_neg h0] at h
  by_cases h1 : m < 130 ∧ m ≥ 120
  · rw [if_pos h1, Option.some.injEq] at h
    refine Or.inr (Or.inl ⟨?_, ?_⟩) <;> omega
  rw [if_neg h1] at h
  by_cases h2 : m < 120 ∧ m ≥ 100
  · rw [if_pos h2, Option.some.injEq] at h
    refine Or.inr (Or.inr (Or.inl ⟨?_, ?_⟩)) <;> omega
  rw [if_neg h2] at h
  by_cases h3 : m < 100 ∧ m ≥ 70
  · rw [if_pos h3, Option.some.injEq] at h
    refine Or.inr (Or.inr (Or.inr (Or.inl ⟨?_, ?_⟩))) <;> omega
  rw [if_neg h3] at h
  by_cases h4 : m < 70 ∧ m ≥ 50
  · rw [if_pos h4, Option.some.injEq] at h
    refine Or.inr (Or.inr (Or.inr (Or.inr (Or.inl ⟨?_, ?_⟩)))) <;> omega
  rw [if_neg h4] at h
  by_cases h5 : m < 50 ∧ m ≥ 20
  · rw [if_pos h5, Option.some.injEq] at h
    refine Or.inr (Or.inr (Or.inr (Or.inr (Or.inr (Or.inl ⟨?_, ?_⟩))))) <;>
      omega
  rw [if_neg h5] at h
  by_cases h6 : m < 20 ∧ m > 0
  · rw [if_pos h6, Option.some.injEq] at h
    refine Or.inr (Or.inr (Or.inr (Or.inr (Or.inr (Or.inr ⟨?_, ?_⟩))))) <;>
      omega
  rw [if_neg h6] at h
  exact absurd h (by simp)

/-- Inversion of the `0x0e` band chain: the ranges that produce each
percentage. -/
lemma band0x0e_cases (m p : Nat) (h : band0x0e m = some p) :
    (m < 250 ∧ m > 240 ∧ p = 65) ∨ (m < 240 ∧ m ≥ 220 ∧ p = 60) ∨
    (m < 220 ∧ m ≥ 208 ∧ p = 55) ∨ (m < 208 ∧ m ≥ 200 ∧ p = 50) ∨
    (m < 200 ∧ m ≥ 190 ∧ p = 45) ∨ (m < 190 ∧ m ≥ 180 ∧ p = 40) ∨
    (m < 179 ∧ m ≥ 169 ∧ p = 35) ∨ (m < 169 ∧ m ≥ 159 ∧ p = 30) ∨
    (m < 159 ∧ m ≥ 148 ∧ p = 25) ∨ (m < 148 ∧ m ≥ 119 ∧ p = 20) ∨
    (m < 119 ∧ m ≥ 90 ∧ p = 15) ∨ (m < 90 ∧ p = 10) := by
  unfold band0x0e at h
  by_cases h0 : m < 250 ∧ m > 240
  · rw [if_pos h0, Option.some.injEq] at h
    refine Or.inl ⟨?_, ?_⟩ <;> omega
  rw [if_neg h0] at h
  by_cases h1 : m < 240 ∧ m ≥ 220
  · rw [if_pos h1, Option.some.injEq] at h
    refine Or.inr (Or.inl ⟨?_, ?_⟩) <;> omega
  rw [if_neg h1] at h
  by_cases h2 : m < 220 ∧ m ≥ 208
  · rw [if_pos h2, Option.some.injEq] at h
    refine Or.inr (Or.inr (Or.inl ⟨?_, ?_⟩)) <;> omega
  rw [if_neg h2] at h
  by_cases h3 : m < 208 ∧ m ≥ 200
  · rw [if_pos h3, Option.some.injEq] at h
    refine Or.inr (Or.inr (Or.inr (Or.inl ⟨?_, ?_⟩))) <;> omega
  rw [if_neg h3] at h
  by_cases h4 : m < 200 ∧ m ≥ 190
  · rw [if_pos h4, Option.some.injEq] at h
    refine Or.inr (Or.inr (Or.inr (Or.inr (Or.inl ⟨?_, ?_⟩)))) <;> omega
  rw [if_neg h4] at h
  by_cases h5 : m < 190 ∧ m ≥ 180
  · rw [if_pos h5, Option.some.injEq] at h
    refine Or.inr (Or.inr (Or.inr (Or.inr (Or.inr (Or.inl ⟨?_, ?_⟩))))) <;>
      omega
  rw [if_neg h5] at h
  by_cases h6 : m < 179 ∧ m ≥ 169
  · rw [if_pos h6, Option.some.injEq] at h
    refine Or.inr (Or.inr (Or.inr (Or.inr (Or.inr (Or.inr
      (Or.inl ⟨?_, ?_⟩)))))) <;> omega
  rw [if_neg h6] at h
  by_cases h7 : m < 169 ∧ m ≥ 159
  · rw [if_pos h7, Option.some.injEq] at h
    refine Or.inr (Or.inr (Or.inr (Or.inr (Or.inr (Or.inr (Or.inr
      (Or.inl ⟨?_, ?_⟩))))))) <;> omega
  rw [if_neg h7] at h
  by_cases h8 : m < 159 ∧ m ≥ 148
  · rw [if_pos h8, Option.some.injEq] at h
    refine Or.inr (Or.inr (Or.inr (Or.inr (Or.inr (Or.inr (Or.inr (Or.inr
      (Or.inl ⟨?_, ?_⟩)))))))) <;> omega
  rw [if_neg h8] at h
  by_cases h9 : m < 148 ∧ m ≥ 119
  · rw [if_pos h9, Option.some.injEq] at h
    refine Or.inr (Or.inr (Or.inr (Or.inr (Or.inr (Or.inr (Or.inr (Or.inr
      (Or.inr (Or.inl ⟨?_, ?_⟩))))))))) <;> omega
  rw [if_neg h9] at h
  by_cases h10 : m < 119 ∧ m ≥ 90
  · rw [if_pos h10, Option.some.injEq] at h
    refine Or.inr (Or.inr (Or.inr (Or.inr (Or.inr (Or.inr (Or.inr (Or.inr
      (Or.inr (Or.inr (Or.inl ⟨?_, ?_⟩)))))))))) <;> omega
  rw [if_neg h10] at h
  by_cases h11 : m < 90
  · rw [if_pos h11, Option.some.injEq] at h
    refine Or.inr (Or.inr (Or.inr (Or.inr (Or.inr (Or.inr (Or.inr (Or.inr
      (Or.inr (Or.inr (Or.inr ⟨?_, ?_⟩)))))))))) <;> omega
  rw [if_neg h11] at h
  exact absurd h (by simp)

/-- The charging step on charge state `0x10`, as an explicit conditional. -/
lemma chargingStep_0x10 (dedupe : Bool) (sess : SessionState) (mv : Nat) :
    chargingStep dedupe sess 0x10 mv
      = if ¬dedupe ∨ some (decide (mv ≥ 20)) ≠ sess.lastCharging
        then (some (decide (mv ≥ 20)), [Ev.charging (decide (mv ≥ 20))])
        else (sess.lastCharging, []) := rfl

/-- The stored charging value after a `0x10` report is always the decoded
one (when suppressed, the stored value was already equal). -/
lemma chargingStep_fst_0x10 (dedupe : Bool) (sess : SessionState) (mv : Nat) :
    (chargingStep dedupe sess 0x10 mv).1 = some (decide (mv ≥ 20)) := by
  rw [chargingStep_0x10]
  split_ifs with h
  · rfl
  · push_neg at h
    exact h.2.symm

/-- The events of the charging step on a `0x10` report. -/
lemma chargingStep_snd_0x10 (dedupe : Bool) (sess : SessionState) (mv : Nat) :
    (chargingStep dedupe sess 0x10 mv).2
      = if ¬dedupe ∨ some (decide (mv ≥ 20)) ≠ sess.lastCharging
        then [Ev.charging (decide (mv ≥ 20))] else [] := by
  rw [chargingStep_0x10]
  split_ifs <;> rfl

/-- On any other charge state the charging step does nothing. -/
lemma chargingStep_other (dedupe : Bool) (sess : SessionState) (cs mv : Nat)
    (h : cs ≠ 0x10) :
    chargingStep dedupe sess cs mv = (sess.lastCharging, []) := by
  unfold chargingStep
  rw [if_neg h]

/-- The charging step emits no battery event. -/
lemma chargingStep_no_battery (dedupe : Bool) (sess : SessionState)
    (cs mv : Nat) :
    (chargingStep dedupe sess cs mv).2.filter isBatteryEv = [] := by
  by_cases hcs : cs = 0x10
  · subst hcs
    rw [chargingStep_snd_0x10]
    split_ifs <;> simp [isBatteryEv]
  · rw [chargingStep_other dedupe sess cs mv hcs]
    rfl

/-- Every event of the charging step is a charging event. -/
lemma chargingStep_filter_charging (dedupe : Bool) (sess : SessionState)
    (cs mv : Nat) :
    (chargingStep dedupe sess cs mv).2.filter isChargingEv
      = (chargingStep dedupe sess cs mv).2 := by
  by_cases hcs : cs = 0x10
  · subst hcs
    rw [chargingStep_snd_0x10]
    split_ifs <;> simp [isChargingEv]
  · rw [chargingStep_other dedupe sess cs mv hcs]
    rfl

/-- The events of the status handler are the charging-step events,
possibly followed by one battery event. -/
lemma handleStatus_evs (dedupe : Bool) (bmi now : Int)
    (sess : SessionState) (cs mv : Nat) :
    (handleStatus dedupe bmi now sess cs mv).2
        = (chargingStep dedupe sess cs mv).2 ∨
    ∃ p, (handleStatus dedupe bmi now sess cs mv).2
        = (chargingStep dedupe sess cs mv).2 ++ [Ev.battery p] := by
  unfold handleStatus
  cases hp : percentageOf cs mv
  · exact Or.inl rfl
  · rename_i p
    simp only [hp]
    split_ifs
    · exact Or.inr ⟨p, rfl⟩
    · exact Or.inl rfl

/-- The stored charging value after the status handler is the one computed
by the charging step. -/
lemma handleStatus_lastCharging (dedupe : Bool) (bmi now : Int)
    (sess : SessionState) (cs mv : Nat) :
    (handleStatus dedupe bmi now sess cs mv).1.lastCharging
      = (chargingStep dedupe sess cs mv).1 := by
  unfold handleStatus
  cases hp : percentageOf cs mv <;>
    (simp only [hp]
     try split_ifs) <;>
    rfl

/-- The charging events of the status handler are exactly the
charging-step events. -/
lemma handleStatus_filter_charging (dedupe : Bool) (bmi now : Int)
    (sess : SessionState) (cs mv : Nat) :
    (handleStatus dedupe bmi now sess cs mv).2.filter isChargingEv
      = (chargingStep dedupe sess cs mv).2 := by
  rcases handleStatus_evs dedupe bmi now sess cs mv with h | ⟨p, h⟩ <;>
    rw [h] <;>
    simp [List.filter_append, chargingStep_filter_charging, isChargingEv]

/-- Charging decode on charge state `0x10`: the stored value becomes
`magicValue >= 20` and a charging event is emitted exactly under the
dedupe condition. -/
lemma handleStatus_charging (dedupe : Bool) (bmi now : Int)
    (sess : SessionState) (mv : Nat) :
    (handleStatus dedupe bmi now sess 0x10 mv).1.lastCharging
        = some (decide (mv ≥ 20)) ∧
    (handleStatus dedupe bmi now sess 0x10 mv).2.filter isChargingEv
        = (if ¬dedupe ∨ some (decide (mv ≥ 20)) ≠ sess.lastCharging
           then [Ev.charging (decide (mv ≥ 20))] else []) := by
  constructor
  · rw [handleStatus_lastCharging, chargingStep_fst_0x10]
  · rw [handleStatus_filter_charging, chargingStep_snd_0x10]

/-- On a charge state other than `0x10` the charging channel is untouched:
no charging event and unchanged stored value. -/
lemma handleStatus_not_0x10 (dedupe : Bool) (bmi now : Int)
    (sess : SessionState) (cs mv : Nat) (h : cs ≠ 0x10) :
    (handleStatus dedupe bmi now sess cs mv).1.lastCharging
        = sess.lastCharging ∧
    (handleStatus dedupe bmi now sess cs mv).2.countP isChargingEv = 0 := by
  constructor
  · rw [handleStatus_lastCharging, chargingStep_other dedupe sess cs mv h]
  · rw [List.countP_eq_length_filter, handleStatus_filter_charging,
      chargingStep_other dedupe sess cs mv h]
    rfl

/-- Battery emission when a percentage is determined: the battery events
are exactly one `battery pct` under the changed-or-timed-out condition,
and the battery state is recorded exactly on emission. -/
lemma handleStatus_battery (dedupe : Bool) (bmi now : Int)
    (sess : SessionState) (cs mv p : Nat)
    (hp : percentageOf cs mv = some p) :
    ((handleStatus dedupe bmi now sess cs mv).2.filter isBatteryEv
        = if ¬dedupe ∨ some p ≠ sess.lastBattery
              ∨ now - sess.lastBatteryEmitTs ≥ bmi
          then [Ev.battery p] else []) ∧
    ((handleStatus dedupe bmi now sess cs mv).1.lastBattery
        = if ¬dedupe ∨ some p ≠ sess.lastBattery
              ∨ now - sess.lastBatteryEmitTs ≥ bmi
          then some p else sess.lastBattery) ∧
    ((handleStatus dedupe bmi now sess cs mv).1.lastBatteryEmitTs
        = if ¬dedupe ∨ some p ≠ sess.lastBattery
              ∨ now - sess.lastBatteryEmitTs ≥ bmi
          then now else sess.lastBatteryEmitTs) := by
  unfold handleStatus
  simp only [hp]
  split_ifs with hb <;>
    simp [List.filter_append, chargingStep_no_battery, isBatteryEv, hb]

/-- When no percentage is determined there is no battery event and the
battery state is unchanged. -/
lemma handleStatus_battery_none (dedupe : Bool) (bmi now : Int)
    (sess : SessionState) (cs mv : Nat)
    (hp : percentageOf cs mv = none) :
    (handleStatus dedupe bmi now sess cs mv).2.countP isBatteryEv = 0 ∧
    (handleStatus dedupe bmi now sess cs mv).1.lastBattery
        = sess.lastBattery ∧
    (handleStatus dedupe bmi now sess cs mv).1.lastBatteryEmitTs
        = sess.lastBatteryEmitTs := by
  unfold handleStatus
  simp only [hp]
  simp [List.countP_eq_length_filter, chargingStep_no_battery]

/-- The power-off branch of the 2-byte handler, as an explicit
conditional: the interval is cleared unconditionally, the event and the
state update follow the dedupe test. -/
lemma handleData2_off (dedupe : Bool) (openOk writeOk : String → Bool)
    (devices : List DeviceInfo) (st : FullState) :
    handleData2 dedupe openOk writeOk devices st 0x64 0x03
      = (⟨if ¬dedupe ∨ st.sess.lastPower ≠ some false
          then { st.sess with lastPower := some false } else st.sess,
          { st.sched with interval := false }⟩,
         if ¬dedupe ∨ st.sess.lastPower ≠ some false
         then [Ev.power false] else []) := by
  unfold handleData2
  rw [if_pos (⟨rfl, rfl⟩ : (0x64 : Nat) = 0x64 ∧ (0x03 : Nat) = 0x03)]
  split_ifs <;> rfl

/-- The power-on branch of the 2-byte handler: `bootstrap` runs
unconditionally, the event and the state update follow the dedupe test. -/
lemma handleData2_on (dedupe : Bool) (openOk writeOk : String → Bool)
    (devices : List DeviceInfo) (st : FullState) :
    handleData2 dedupe openOk writeOk devices st 0x64 0x01
      = (⟨if ¬dedupe ∨ st.sess.lastPower ≠ some true
          then { st.sess with lastPower := some true } else st.sess,
          (bootstrap openOk writeOk devices st.sched).1⟩,
         if ¬dedupe ∨ st.sess.lastPower ≠ some true
         then (bootstrap openOk writeOk devices st.sched).2 ++ [Ev.power true]
         else (bootstrap openOk writeOk devices st.sched).2) := by
  unfold handleData2
  rw [if_neg (by decide), if_pos (⟨rfl, rfl⟩ : (0x64 : Nat) = 0x64 ∧ (0x01 : Nat) = 0x01)]
  split_ifs <;> rfl

/-- The mute branch of the 2-byte handler (any non-power 2-byte report). -/
lemma handleData2_mute (dedupe : Bool) (openOk writeOk : String → Bool)
    (devices : List DeviceInfo) (st : FullState) (b0 b1 : Nat)
    (h1 : ¬(b0 = 0x64 ∧ b1 = 0x03)) (h2 : ¬(b0 = 0x64 ∧ b1 = 0x01)) :
    handleData2 dedupe openOk writeOk devices st b0 b1
      = (⟨if ¬dedupe ∨ some (decide (b0 = 0x65 ∧ b1 = 0x04)) ≠ st.sess.lastMuted
          then { st.sess with lastMuted := some (decide (b0 = 0x65 ∧ b1 = 0x04)) }
          else st.sess,
          st.sched⟩,
         if ¬dedupe ∨ some (decide (b0 = 0x65 ∧ b1 = 0x04)) ≠ st.sess.lastMuted
         then [Ev.muted (decide (b0 = 0x65 ∧ b1 = 0x04))] else []) := by
  unfold handleData2
  rw [if_neg h1, if_neg h2]
  dsimp only
  split_ifs <;> rfl

/-! ## Claim theorems -/

/-- C2: a 2-byte report `(0x64,0x03)` decodes exactly `Power(off)` and
leaves the scheduler disarmed; `(0x64,0x01)` decodes exactly `Power(on)`
and leaves the scheduler armed; every other 2-byte report decodes
`Muted(b)` with `b` true exactly for `(0x65,0x04)`.  With dedupe
disabled, the power/mute events the handler emits are exactly the decoded
signal. -/
theorem c2_two_byte_reports (dedupe : Bool) (openOk writeOk : String → Bool)
    (devices : List DeviceInfo) (st : FullState) (b0 b1 : Nat) :
    decode2 0x64 0x03 = Signal.power false ∧
    (handleData2 dedupe openOk writeOk devices st 0x64 0x03).1.sched.interval
        = false ∧
    decode2 0x64 0x01 = Signal.power true ∧
    (handleData2 dedupe openOk writeOk devices st 0x64 0x01).1.sched.interval
        = true ∧
    (¬(b0 = 0x64 ∧ b1 = 0x03) → ¬(b0 = 0x64 ∧ b1 = 0x01) →
        decode2 b0 b1 = Signal.muted (decide (b0 = 0x65 ∧ b1 = 0x04))) ∧
    ((handleData2 false openOk writeOk devices st b0 b1).2.filter
        isPowerMutedEv = [evOfSignal (decode2 b0 b1)]) := by
  refine ⟨rfl, ?_, rfl, ?_, ?_, ?_⟩
  · rw [handleData2_off]
  · rw [handleData2_on]
    exact bootstrap_interval openOk writeOk devices st.sched
  · intro h1 h2
    unfold decode2
    rw [if_neg h1, if_neg h2]
  · by_cases h1 : b0 = 0x64 ∧ b1 = 0x03
    · obtain ⟨rfl, rfl⟩ := h1
      rw [handleData2_off]
      simp [decode2, evOfSignal, isPowerMutedEv]
    · by_cases h2 : b0 = 0x64 ∧ b1 = 0x01
      · obtain ⟨rfl, rfl⟩ := h2
        rw [handleData2_on]
        simp [decode2, evOfSignal, isPowerMutedEv, List.filter_append,
          bootstrap_filter_pm]
      · rw [handleData2_mute false openOk writeOk devices st b0 b1 h1 h2]
        unfold decode2
        rw [if_neg h1, if_neg h2]
        simp [evOfSignal, isPowerMutedEv]

/-- Witness for C2: the report `(0x65,0x04)` decodes `Muted(true)`. -/
theorem c2_two_byte_reports_witness :
    decode2 0x65 0x04 = Signal.muted (decide ((0x65:Nat) = 0x65 ∧ (0x04:Nat) = 0x04)) :=
  (c2_two_byte_reports true (fun _ => true) (fun _ => true) [] initialFull
      0x65 0x04).2.2.2.2.1 (by decide) (by decide)

/-- C10: the scheduler side effects of a 2-byte power report happen
unconditionally, before the dedupe test: `(0x64,0x03)` always clears and
nulls the repeating timer, `(0x64,0x01)` always runs `bootstrap`
(re-arming the timer and attempting the wake-up write) — even when the
power event itself is suppressed as a duplicate. -/
theorem c10_power_side_effects (dedupe : Bool)
    (openOk writeOk : String → Bool) (devices : List DeviceInfo)
    (st : FullState) :
    ((handleData2 dedupe openOk writeOk devices st 0x64 0x03).1.sched
        = { st.sched with interval := false }) ∧
    ((handleData2 dedupe openOk writeOk devices st 0x64 0x01).1.sched
        = (bootstrap openOk writeOk devices st.sched).1) ∧
    (st.sess.lastPower = some false →
        (handleData2 true openOk writeOk devices st 0x64 0x03).2 = [] ∧
        (handleData2 true openOk writeOk devices st 0x64 0x03).1.sched
          = { st.sched with interval := false }) ∧
    (st.sess.lastPower = some true →
        (handleData2 true openOk writeOk devices st 0x64 0x01).2
            = (bootstrap openOk writeOk devices st.sched).2 ∧
        (handleData2 true openOk writeOk devices st 0x64 0x01).1.sched
            = (bootstrap openOk writeOk devices st.sched).1) := by
  refine ⟨?_, ?_, ?_, ?_⟩
  · rw [handleData2_off]
  · rw [handleData2_on]
  · intro h
    rw [handleData2_off]
    simp [h]
  · intro h
    rw [handleData2_on]
    simp [h]

/-- Witness for C10: with dedupe on and `lastPower` already `off`, the
power-off report emits nothing yet still disarms the timer. -/
theorem c10_power_side_effects_witness :
    (handleData2 true (fun _ => true) (fun _ => true) []
        ⟨{ initialSession with lastPower := some false }, initialSched⟩
        0x64 0x03).2 = [] ∧
    (handleData2 true (fun _ => true) (fun _ => true) []
        ⟨{ initialSession with lastPower := some false }, initialSched⟩
        0x64 0x03).1.sched
      = { initialSched with interval := false } :=
  (c10_power_side_effects true (fun _ => true) (fun _ => true) []
      ⟨{ initialSession with lastPower := some false }, initialSched⟩).2.2.1 rfl

/-- C3: dedupe for the power, muted and charging channels.  With dedupe
enabled a decoded value is emitted exactly when it differs from the
stored last value of its channel; with dedupe disabled every decode is
emitted (the conditional is `¬dedupe ∨ ...`); after every decode the
stored last value equals the decoded value; and, starting from a state
whose stored value differs, two equal decodes in succession emit exactly
one event of that channel. -/
theorem c3_dedupe_policy (dedupe : Bool) (openOk writeOk : String → Bool)
    (devices : List DeviceInfo) (st : FullState) (b0 b1 : Nat)
    (bmi now now2 : Int) (sess : SessionState) (mv : Nat) :
    ((handleData2 dedupe openOk writeOk devices st 0x64 0x03).2
        = if ¬dedupe ∨ st.sess.lastPower ≠ some false
          then [Ev.power false] else []) ∧
    ((handleData2 dedupe openOk writeOk devices st 0x64 0x03).1.sess.lastPower
        = some false) ∧
    ((handleData2 dedupe openOk writeOk devices st 0x64 0x01).2.filter
        isPowerEv
        = if ¬dedupe ∨ st.sess.lastPower ≠ some true
          then [Ev.power true] else []) ∧
    ((handleData2 dedupe openOk writeOk devices st 0x64 0x01).1.sess.lastPower
        = some true) ∧
    (¬(b0 = 0x64 ∧ b1 = 0x03) → ¬(b0 = 0x64 ∧ b1 = 0x01) →
      ((handleData2 dedupe openOk writeOk devices st b0 b1).2
          = if ¬dedupe ∨ some (decide (b0 = 0x65 ∧ b1 = 0x04))
                  ≠ st.sess.lastMuted
            then [Ev.muted (decide (b0 = 0x65 ∧ b1 = 0x04))] else []) ∧
      (handleData2 dedupe openOk writeOk devices st b0 b1).1.sess.lastMuted
          = some (decide (b0 = 0x65 ∧ b1 = 0x04))) ∧
    ((handleStatus dedupe bmi now sess 0x10 mv).2.filter isChargingEv
        = if ¬dedupe ∨ some (decide (mv ≥ 20)) ≠ sess.lastCharging
          then [Ev.charging (decide (mv ≥ 20))] else []) ∧
    ((handleStatus dedupe bmi now sess 0x10 mv).1.lastCharging
        = some (decide (mv ≥ 20))) ∧
    (st.sess.lastPower ≠ some false →
      ((handleData2 true openOk writeOk devices st 0x64 0x03).2
        ++ (handleData2 true openOk writeOk devices
              (handleData2 true openOk writeOk devices st 0x64 0x03).1
              0x64 0x03).2).countP isPowerEv = 1) ∧
    (st.sess.lastPower ≠ some true →
      ((handleData2 true openOk writeOk devices st 0x64 0x01).2
        ++ (handleData2 true openOk writeOk devices
              (handleData2 true openOk writeOk devices st 0x64 0x01).1
              0x64 0x01).2).countP isPowerEv = 1) ∧
    (¬(b0 = 0x64 ∧ b1 = 0x03) → ¬(b0 = 0x64 ∧ b1 = 0x01) →
      st.sess.lastMuted ≠ some (decide (b0 = 0x65 ∧ b1 = 0x04)) →
      ((handleData2 true openOk writeOk devices st b0 b1).2
        ++ (handleData2 true openOk writeOk devices
              (handleData2 true openOk writeOk devices st b0 b1).1
              b0 b1).2).countP isMutedEv = 1) ∧
    (sess.lastCharging ≠ some (decide (mv ≥ 20)) →
      ((handleStatus true bmi now sess 0x10 mv).2
        ++ (handleStatus true bmi now2
              (handleStatus true bmi now sess 0x10 mv).1 0x10 mv).2).countP
          isChargingEv = 1) := by
  refine ⟨?_, ?_, ?_, ?_, ?_, ?_, ?_, ?_, ?_, ?_, ?_⟩
  · rw [handleData2_off]
  · rw [handleData2_off]
    split_ifs with h
    · rfl
    · push_neg at h
      exact h.2
  · rw [handleData2_on]
    split_ifs <;>
      simp [List.filter_append, bootstrap_filter_power, isPowerEv]
  · rw [handleData2_on]
    split_ifs with h
    · rfl
    · push_neg at h
      exact h.2
  · intro h1 h2
    rw [handleData2_mute dedupe openOk writeOk devices st b0 b1 h1 h2]
    refine ⟨rfl, ?_⟩
    split_ifs with h
    · rfl
    · push_neg at h
      exact h.2.symm
  · exact (handleStatus_charging dedupe bmi now sess mv).2
  · exact (handleStatus_charging dedupe bmi now sess mv).1
  · intro hne
    rw [List.countP_append, handleData2_off, handleData2_off]
    simp [hne, isPowerEv]
  · intro hne
    rw [List.countP_append, handleData2_on, handleData2_on]
    simp [hne, isPowerEv, List.countP_append, bootstrap_countP_power]
  · intro h1 h2 hne
    rw [List.countP_append,
      handleData2_mute true openOk writeOk devices st b0 b1 h1 h2,
      handleData2_mute true openOk writeOk devices _ b0 b1 h1 h2]
    set m : Bool := decide (b0 = 0x65 ∧ b1 = 0x04) with hm
    have hne2 : some m ≠ st.sess.lastMuted := Ne.symm hne
    simp [hne2, isMutedEv]
  · intro hne
    rw [List.countP_eq_length_filter, List.filter_append,
      handleStatus_filter_charging, handleStatus_filter_charging,
      chargingStep_snd_0x10, chargingStep_snd_0x10,
      (handleStatus_charging true bmi now sess mv).1]
    simp [Ne.symm hne]

/-- Witness for C3: from the initial state, the report `(0x65,0x04)`
updates `lastMuted` to `Muted(true)`. -/
theorem c3_dedupe_policy_witness :
    (handleData2 true (fun _ => true) (fun _ => true) [] initialFull
        0x65 0x04).1.sess.lastMuted
      = some (decide ((0x65:Nat) = 0x65 ∧ (0x04:Nat) = 0x04)) :=
  ((c3_dedupe_policy true (fun _ => true) (fun _ => true) [] initialFull
      0x65 0x04 0 0 0 initialSession 0).2.2.2.2.1 (by decide) (by decide)).2

/-- C4: battery hybrid dedupe/heartbeat policy.  When a percentage is
determined, a battery event is emitted exactly when dedupe is disabled,
or the value differs from the last emitted battery value, or at least
`batteryMinIntervalMs` has elapsed since the last battery emission; on
emission the value and timestamp are recorded, on suppression they are
unchanged; the default interval is 15000 ms; with an unchanged value
nothing is emitted while the interval has not elapsed, and exactly one
event once it has. -/
theorem c4_battery_policy (dedupe : Bool) (bmi now : Int)
    (sess : SessionState) (cs mv p : Nat)
    (hp : percentageOf cs mv = some p) :
    ((handleStatus dedupe bmi now sess cs mv).2.filter isBatteryEv
        = if ¬dedupe ∨ some p ≠ sess.lastBattery
              ∨ now - sess.lastBatteryEmitTs ≥ bmi
          then [Ev.battery p] else []) ∧
    ((¬dedupe ∨ some p ≠ sess.lastBattery
          ∨ now - sess.lastBatteryEmitTs ≥ bmi) →
        (handleStatus dedupe bmi now sess cs mv).1.lastBattery = some p ∧
        (handleStatus dedupe bmi now sess cs mv).1.lastBatteryEmitTs = now) ∧
    (¬(¬dedupe ∨ some p ≠ sess.lastBattery
          ∨ now - sess.lastBatteryEmitTs ≥ bmi) →
        (handleStatus dedupe bmi now sess cs mv).1.lastBattery
            = sess.lastBattery ∧
        (handleStatus dedupe bmi now sess cs mv).1.lastBatteryEmitTs
            = sess.lastBatteryEmitTs) ∧
    batteryMinIntervalMsDefault = 15000 ∧
    (dedupe = true → sess.lastBattery = some p →
        now - sess.lastBatteryEmitTs < bmi →
        (handleStatus dedupe bmi now sess cs mv).2.filter isBatteryEv = []) ∧
    (dedupe = true → sess.lastBattery = some p →
        now - sess.lastBatteryEmitTs ≥ bmi →
        (handleStatus dedupe bmi now sess cs mv).2.filter isBatteryEv
          = [Ev.battery p]) := by
  refine ⟨(handleStatus_battery dedupe bmi now sess cs mv p hp).1,
    ?_, ?_, rfl, ?_, ?_⟩
  · intro h
    rw [(handleStatus_battery dedupe bmi now sess cs mv p hp).2.1, if_pos h,
      (handleStatus_battery dedupe bmi now sess cs mv p hp).2.2, if_pos h]
    exact ⟨rfl, rfl⟩
  · intro h
    rw [(handleStatus_battery dedupe bmi now sess cs mv p hp).2.1, if_neg h,
      (handleStatus_battery dedupe bmi now sess cs mv p hp).2.2, if_neg h]
    exact ⟨rfl, rfl⟩
  · intro hd hb hlt
    have hcond : ¬(¬dedupe ∨ some p ≠ sess.lastBattery
        ∨ now - sess.lastBatteryEmitTs ≥ bmi) := by
      push_neg
      exact ⟨by simp [hd], hb.symm, by omega⟩
    rw [(handleStatus_battery dedupe bmi now sess cs mv p hp).1, if_neg hcond]
  · intro hd hb hge
    rw [(handleStatus_battery dedupe bmi now sess cs mv p hp).1,
      if_pos (Or.inr (Or.inr hge))]

/-- Witness for C4: from the initial state at time 0 a fresh percentage is
emitted and recorded. -/
theorem c4_battery_policy_witness :
    (handleStatus true 15000 0 initialSession 0x0f 130).1.lastBattery
        = some 100 ∧
    (handleStatus true 15000 0 initialSession 0x0f 130).1.lastBatteryEmitTs
        = 0 :=
  (c4_battery_policy true 15000 0 initialSession 0x0f 130 100
      (by decide)).2.1 (by decide)

/-- C5: the battery band lookup is the pure function `percentageOf` of
`(chargeState, magicValue)`; within a fixed charge state of `0x0f` or
`0x0e`, whenever the lookup determines percentages for two magic values
`m2 ≤ m1`, the percentage at `m2` is at most the percentage at `m1`
(monotonically non-increasing as the magic value decreases). -/
theorem c5_band_monotone (cs m1 m2 p1 p2 : Nat)
    (hcs : cs = 0x0f ∨ cs = 0x0e) (hm : m2 ≤ m1)
    (h1 : percentageOf cs m1 = some p1) (h2 : percentageOf cs m2 = some p2) :
    p2 ≤ p1 := by
  rcases hcs with rfl | rfl
  · rw [percentageOf_0x0f] at h1 h2
    have d1 := band0x0f_cases m1 p1 h1
    have d2 := band0x0f_cases m2 p2 h2
    omega
  · rw [percentageOf_0x0e] at h1 h2
    have d1 := band0x0e_cases m1 p1 h1
    have d2 := band0x0e_cases m2 p2 h2
    omega

/-- Witness for C5 at charge state `0x0f`, magic values 130 and 120. -/
theorem c5_band_monotone_witness :
    percentageOf 0x0f 130 = some 100 ∧ percentageOf 0x0f 120 = some 95 ∧
      95 ≤ 100 :=
  ⟨by decide, by decide,
   c5_band_monotone 0x0f 130 120 100 95 (Or.inl rfl) (by decide) (by decide)
     (by decide)⟩

/-- C1 amended: for a raw report of length 15 or 20, the handler extracts
`chargeState = byte 3` and `magicValue = byte 4` if nonzero else
`chargeState` and runs the status decode on them; if
`chargeState = 0x10` the charging channel is decoded as
`magicValue >= 20` and a percentage of 100 is determined when
`magicValue <= 11`; if `chargeState = 0x0f` the percentage follows the
descending bands exactly as coded; charging is decoded only when
`chargeState = 0x10`; and for any charge state other than `0x10`, `0x0f`
and `0x0e` no percentage is determined and no battery event is emitted
(`0x0e` does determine percentages, per its own band table). -/
theorem c1_status_decode (dedupe : Bool) (openOk writeOk : String → Bool)
    (devices : List DeviceInfo) (bmi now : Int) (st : FullState)
    (data : List Nat) (hlen : data.length = 15 ∨ data.length = 20)
    (cs mv : Nat) (hcs : cs = data.getD 3 0)
    (hmv : mv = if data.getD 4 0 ≠ 0 then data.getD 4 0 else cs) :
    (handleReport dedupe openOk writeOk devices bmi now st data
        = ({ st with sess := (handleStatus dedupe bmi now st.sess cs mv).1 },
           (handleStatus dedupe bmi now st.sess cs mv).2)) ∧
    (cs = 0x10 →
        (handleStatus dedupe bmi now st.sess cs mv).1.lastCharging
            = some (decide (mv ≥ 20)) ∧
        (mv ≤ 11 → percentageOf cs mv = some 100)) ∧
    (cs = 0x0f →
        (130 ≤ mv → percentageOf cs mv = some 100) ∧
        (120 ≤ mv → mv < 130 → percentageOf cs mv = some 95) ∧
        (100 ≤ mv → mv < 120 → percentageOf cs mv = some 90) ∧
        (70 ≤ mv → mv < 100 → percentageOf cs mv = some 85) ∧
        (50 ≤ mv → mv < 70 → percentageOf cs mv = some 80) ∧
        (20 ≤ mv → mv < 50 → percentageOf cs mv = some 75) ∧
        (0 < mv → mv < 20 → percentageOf cs mv = some 70) ∧
        (mv = 0 → percentageOf cs mv = none)) ∧
    (cs ≠ 0x10 →
        (handleStatus dedupe bmi now st.sess cs mv).1.lastCharging
            = st.sess.lastCharging ∧
        (handleStatus dedupe bmi now st.sess cs mv).2.countP isChargingEv
            = 0) ∧
    (cs ≠ 0x10 → cs ≠ 0x0f → cs ≠ 0x0e →
        percentageOf cs mv = none ∧
        (handleStatus dedupe bmi now st.sess cs mv).2.countP isBatteryEv
            = 0) := by
  refine ⟨?_, ?_, ?_, ?_, ?_⟩
  · rw [hmv, hcs]
    obtain h | h := hlen <;> simp [handleReport, h]
  · intro h
    subst h
    refine ⟨(handleStatus_charging dedupe bmi now st.sess mv).1, ?_⟩
    intro h11
    unfold percentageOf
    rw [if_pos ⟨rfl, h11⟩]
  · intro h
    subst h
    refine ⟨?_, ?_, ?_, ?_, ?_, ?_, ?_, ?_⟩ <;>
      (intros
       rw [percentageOf_0x0f]
       unfold band0x0f)
    · rw [if_pos (by omega)]
    · rw [if_neg (by omega), if_pos (by omega)]
    · rw [if_neg (by omega), if_neg (by omega), if_pos (by omega)]
    · rw [if_neg (by omega), if_neg (by omega), if_neg (by omega),
        if_pos (by omega)]
    · rw [if_neg (by omega), if_neg (by omega), if_neg (by omega),
        if_neg (by omega), if_pos (by omega)]
    · rw [if_neg (by omega), if_neg (by omega), if_neg (by omega),
        if_neg (by omega), if_neg (by omega), if_pos (by omega)]
    · rw [if_neg (by omega), if_neg (by omega), if_neg (by omega),
        if_neg (by omega), if_neg (by omega), if_neg (by omega),
        if_pos (by omega)]
    · rw [if_neg (by omega), if_neg (by omega), if_neg (by omega),
        if_neg (by omega), if_neg (by omega), if_neg (by omega),
        if_neg (by omega)]
  · intro h
    exact handleStatus_not_0x10 dedupe bmi now st.sess cs mv h
  · intro h1 h2 h3
    have hp : percentageOf cs mv = none := by
      unfold percentageOf
      rw [if_neg (fun hc => h1 hc.1), if_neg h2, if_neg h3]
    exact ⟨hp,
      (handleStatus_battery_none dedupe bmi now st.sess cs mv hp).1⟩

/-- Witness for C1 amended: a 15-byte report with `b3 = 0x0f`,
`b4 = 130` routes through the status decode and yields percentage 100. -/
theorem c1_status_decode_witness :
    handleReport true (fun _ => true) (fun _ => true) [] 15000 0 initialFull
        [0, 0, 0, 0x0f, 130, 0, 0, 0, 0, 0, 0, 0, 0, 0, 0]
      = ({ initialFull with
            sess := (handleStatus true 15000 0 initialSession 0x0f 130).1 },
         (handleStatus true 15000 0 initialSession 0x0f 130).2) ∧
    percentageOf 0x0f 130 = some 100 := by
  have h := c1_status_decode true (fun _ => true) (fun _ => true) [] 15000 0
    initialFull [0, 0, 0, 0x0f, 130, 0, 0, 0, 0, 0, 0, 0, 0, 0, 0]
    (Or.inl (by decide)) 0x0f 130 (by decide) (by decide)
  exact ⟨h.1, (h.2.2.1 rfl).1 (by decide)⟩

/-- C6 counterexample: the boundary magic values 240, 179 and 250 of the
`0x0e` band table satisfy the comparison of NO band of the decoder (zero
bands, not exactly one), and the decoder assigns them no percentage —
refuting the claim that every boundary value is assigned exactly one
percentage. -/
theorem c6_counterexample :
    bands0x0e.countP (fun b => b 240) = 0 ∧
    bands0x0e.countP (fun b => b 179) = 0 ∧
    bands0x0e.countP (fun b => b 250) = 0 ∧
    percentageOf 0x0e 240 = none ∧
    percentageOf 0x0e 179 = none ∧
    percentageOf 0x0e 250 = none := by decide

set_option maxRecDepth 4000 in
/-- C6 amended: in the `0x0e` band table, every boundary value other than
179, 240 and 250 satisfies the comparison of exactly one band and is
assigned a percentage; the boundary values 179, 240 and 250 satisfy no
band at all and are assigned no percentage.  For every byte value, the
decoder returns no percentage exactly when no band comparison holds. -/
theorem c6_amended :
    (∀ m ∈ ([90, 119, 148, 159, 169, 180, 190, 200, 208, 220] : List Nat),
        bands0x0e.countP (fun b => b m) = 1 ∧ percentageOf 0x0e m ≠ none) ∧
    (∀ m ∈ ([179, 240, 250] : List Nat),
        bands0x0e.countP (fun b => b m) = 0 ∧ percentageOf 0x0e m = none) ∧
    (∀ m < 256,
        (bands0x0e.countP (fun b => b m) = 0 ↔ percentageOf 0x0e m = none)) := by
  decide

/-- Witness for C6 amended at boundary magic value 90. -/
theorem c6_amended_witness :
    bands0x0e.countP (fun b => b 90) = 1 ∧ percentageOf 0x0e 90 ≠ none :=
  c6_amended.1 90 (by decide)

/-- C1 counterexample: a 15-byte report with `b3 = 0x0e`, `b4 = 100` — a
charge state other than `0x10` and `0x0f` — nevertheless determines a
battery percentage (15), and the handler emits a battery event for it,
refuting the clause that any charge state other than those two determines
no percentage. -/
theorem c1_counterexample :
    percentageOf 0x0e 100 = some 15 ∧
    (handleReport true (fun _ => true) (fun _ => true) []
        batteryMinIntervalMsDefault 0 initialFull
        [0, 0, 0, 0x0e, 100, 0, 0, 0, 0, 0, 0, 0, 0, 0, 0]).2
      = [Ev.battery 15] := by decide

/-- C7 counterexample: with a device list carrying no interface of usage
771, a `bootstrap` call from the initial scheduler state emits the
descriptive error event, but the repeating wake-up timer IS armed
afterwards (the timer is started at the top of `bootstrap`, before the
status-interface lookup) — refuting the clause that the scheduler is not
armed in this case. -/
theorem c7_counterexample :
    (bootstrap (fun _ => true) (fun _ => true) [nonStatusDev]
        initialSched).2 = [Ev.error statusNotFoundMsg] ∧
    (bootstrap (fun _ => true) (fun _ => true) [nonStatusDev]
        initialSched).1.interval = true := by decide

/-- C7 amended: status-interface selection prefers an interface with
usage 771 and usage-page 65363 or 65424, falling back to any interface
with usage 771; the preferred and fallback predicates are exactly those
comparisons; any selected interface comes from the device list and has
the matching usage; and when no interface with usage 771 exists,
`bootstrap` emits the descriptive error but the repeating timer is armed
regardless (it was started at the top of `bootstrap` before the lookup),
so the scheduler retries on the next tick. -/
theorem c7_status_selection (openOk writeOk : String → Bool)
    (devices : List DeviceInfo) (s : SchedState) (d : DeviceInfo) :
    (isStatusPreferred d = true ↔
        d.usage = some 771
          ∧ (d.usagePage = some 65363 ∨ d.usagePage = some 65424)) ∧
    (hasStatusUsage d = true ↔ d.usage = some 771) ∧
    (devices.find? isStatusPreferred = some d →
        findStatusInterface devices = some d) ∧
    (devices.find? isStatusPreferred = none →
        findStatusInterface devices = devices.find? hasStatusUsage) ∧
    (findStatusInterface devices = some d →
        d ∈ devices ∧ hasStatusUsage d = true) ∧
    ((∀ e ∈ devices, hasStatusUsage e = false) →
        findStatusInterface devices = none) ∧
    (s.bootstrapDevice = none → findStatusInterface devices = none →
        bootstrap openOk writeOk devices s
          = ({ interval := true, bootstrapDevice := none },
             [Ev.error statusNotFoundMsg])) := by
  refine ⟨?_, ?_, ?_, ?_, ?_, ?_, ?_⟩
  · cases hup : d.usagePage <;>
      simp [isStatusPreferred, hup, STATUS_USAGE, STATUS_USAGEPAGES]
  · simp [hasStatusUsage, STATUS_USAGE]
  · intro h
    unfold findStatusInterface
    rw [h]
  · intro h
    unfold findStatusInterface
    rw [h]
  · intro h
    unfold findStatusInterface at h
    cases hf : devices.find? isStatusPreferred with
    | some e =>
        rw [hf] at h
        obtain rfl : e = d := by injection h
        exact ⟨List.mem_of_find?_eq_some hf,
          statusPreferred_hasUsage (List.find?_some hf)⟩
    | none =>
        rw [hf] at h
        exact ⟨List.mem_of_find?_eq_some h, List.find?_some h⟩
  · intro h
    unfold findStatusInterface
    rw [List.find?_eq_none.mpr (fun x hx hpx => by
      have hu := statusPreferred_hasUsage hpx
      rw [h x hx] at hu
      exact Bool.false_ne_true hu)]
    exact List.find?_eq_none.mpr (fun x hx hpx => by
      rw [h x hx] at hpx
      exact Bool.false_ne_true hpx)
  · intro h1 h2
    rcases s with ⟨iv, bd⟩
    simp only at h1
    subst h1
    unfold bootstrap
    simp [h2]

/-- Witness for C7 amended: the sample status interface is selected from a
singleton list. -/
theorem c7_status_selection_witness :
    findStatusInterface [statusDev] = some statusDev :=
  (c7_status_selection (fun _ => true) (fun _ => true) [statusDev]
      initialSched statusDev).2.2.1 (by decide)

/-- C8 counterexample: constructing a session over a single interface that
is the status interface opens its path twice — once as the scheduler's
`bootstrapDevice` handle and once in the headset open loop — refuting the
invariant that at most one handle is open per distinct interface path. -/
theorem c8_counterexample :
    (sessionOpens (fun _ => true) (fun _ => true) [statusDev]).count
        "status0" = 2 ∧
    ¬((sessionOpens (fun _ => true) (fun _ => true) [statusDev]).count
        "status0" ≤ 1) := by decide

/-- C8 amended: when the enumerated interface paths are pairwise distinct,
the headset open loop opens each path at most once; overall a path is
open under at most two handles during a session — the extra one being the
scheduler's `bootstrapDevice` handle, which can duplicate the status
interface path (as the counterexample shows it actually does). -/
theorem c8_open_handles (openOk writeOk : String → Bool)
    (devices : List DeviceInfo)
    (hnd : (devices.map (fun d => d.path)).Nodup) (p : String) :
    (headsetOpens openOk devices).count p ≤ 1 ∧
    (sessionOpens openOk writeOk devices).count p ≤ 2 := by
  have h1 : (headsetOpens openOk devices).count p
      ≤ ((devices.map (fun d => d.path)).count p) := by
    apply List.Sublist.count_le
    exact List.Sublist.map _ (List.filter_sublist devices)
  have h2 : (devices.map (fun d => d.path)).count p ≤ 1 :=
    List.nodup_iff_count_le_one.mp hnd p
  refine ⟨le_trans h1 h2, ?_⟩
  unfold sessionOpens
  rw [List.count_append]
  have h3 : (match (bootstrap openOk writeOk devices
      { interval := false, bootstrapDevice := none }).1.bootstrapDevice with
      | some q => [q]
      | none => ([] : List String)).count p ≤ 1 := by
    cases (bootstrap openOk writeOk devices
        { interval := false, bootstrapDevice := none }).1.bootstrapDevice with
    | none => simp
    | some q =>
        by_cases hpq : p = q <;> simp [hpq, List.count_cons]
  have h4 := le_trans h1 h2
  omega

/-- Witness for C8 amended: for the singleton status-interface list the
headset loop opens the path once and the session at most twice. -/
theorem c8_open_handles_witness :
    (headsetOpens (fun _ => true) [statusDev]).count "status0" ≤ 1 ∧
    (sessionOpens (fun _ => true) (fun _ => true) [statusDev]).count
        "status0" ≤ 2 :=
  c8_open_handles (fun _ => true) (fun _ => true) [statusDev] (by decide)
    "status0"

/-- C9 (code bug): after the external `'close'` signal on a session whose
only interface is the status interface, the closed handles are exactly
the headset-loop ones; the scheduler's status handle remains open and the
repeating timer remains armed — the code does not honor the specified
shutdown contract of closing every handle and disarming the scheduler. -/
theorem c9_close_divergence :
    (closeSignal (createSession (fun _ => true) (fun _ => true)
        [statusDev])).2 = ["status0"] ∧
    (closeSignal (createSession (fun _ => true) (fun _ => true)
        [statusDev])).1.sched.interval = true ∧
    (closeSignal (createSession (fun _ => true) (fun _ => true)
        [statusDev])).1.sched.bootstrapDevice = some "status0" := by decide

end HyperX
